import Mathlib

/-!
Verification development for the session-supervisor worker of the `cecli`
repository (`aider/tui/worker.py`, class `CoderWorker`).

The worker runs a Coder session on a background thread with its own asyncio
event loop.  We give a shallow embedding of its pure control logic:

* Python dictionaries of keyword arguments become association lists over an
  abstract value type `PyVal` (object identity is a `Nat` handle).
* The body of `CoderWorker._async_run` becomes `asyncRun`, a function from the
  current coder and an oracle list of run-step outcomes (what each
  `await self.coder.run()` call does: return, raise `CancelledError`, raise
  `SwitchCoder`, or raise a plain exception) to the list of messages pushed on
  the output queue and the way the loop exits.  The external constructor
  `Coder.create` is a parameter `create : CreateFn`; it is the fallible step of
  the swap protocol.
* `CoderWorker.start`, `CoderWorker.stop` and `CoderWorker._cleanup_loop`
  become explicit state-transition functions over small state records, with
  booleans as oracles for the points where the runtime may raise.
-/

namespace CecliWorker

/-- Abstract Python values appearing in keyword-argument dictionaries.
Opaque objects (the io object, coder instances, args namespaces, MCP handles)
are represented by `obj` with a `Nat` identity; the only list literal the
worker builds is the empty list (`kwargs["mcp_servers"] = []`). -/
inductive PyVal where
  | bool (b : Bool)
  | int (n : Int)
  | str (s : String)
  | obj (id : Nat)
  | emptyList
deriving DecidableEq

/-- A Python attribute that may be absent, `None`, or a string
(models `edit_format` as consumed by `getattr(..., 'edit_format', 'code')`). -/
inductive StrAttr where
  | absent
  | pyNone
  | str (s : String)
deriving DecidableEq

/-- A Python keyword-argument dictionary: an insertion-ordered association
list from string keys to values. -/
abbrev Dict : Type := List (String × PyVal)

/-- Dictionary key lookup (`kwargs[k]` / `k in kwargs`). -/
def Dict.lookup : Dict → String → Option PyVal
  | [], _ => Option.none
  | (k', v) :: rest, k => if k' = k then some v else Dict.lookup rest k

/-- Dictionary key assignment (`kwargs[k] = v`): replaces the first binding of
`k` in place, or appends a new binding. -/
def Dict.set : Dict → String → PyVal → Dict
  | [], k, v => [(k, v)]
  | (k', v') :: rest, k, v =>
      if k' = k then (k, v) :: rest else (k', v') :: Dict.set rest k v

/-- Dictionary key deletion (`del kwargs[k]`): removes the first binding. -/
def Dict.del : Dict → String → Dict
  | [], _ => []
  | (k', v') :: rest, k => if k' = k then rest else (k', v') :: Dict.del rest k

/-- Membership test (`k in kwargs`). -/
def Dict.hasKey (d : Dict) (k : String) : Bool :=
  (d.lookup k).isSome

/-- Python `dict.update`: apply every binding of `o` onto `d`, the override
winning on key collision. -/
def Dict.update (d : Dict) (o : Dict) : Dict :=
  o.foldl (fun acc kv => acc.set kv.1 kv.2) d

/-- Number of bindings of key `k` in `d` (Python dictionaries always have at
most one; our association lists can temporarily hold more). -/
def Dict.countKey : Dict → String → Nat
  | [], _ => 0
  | (k', _) :: rest, k => (if k' = k then 1 else 0) + Dict.countKey rest k

/-- The state of a Coder instance, restricted to what `CoderWorker` reads or
writes: its object identity, the `io`, `args` and `edit_format` attributes,
and the identities of the shared MCP handles (`mcp_servers`, `mcp_tools`). -/
structure Coder where
  id : Nat
  io : PyVal
  args : PyVal
  edit_format : StrAttr
  mcp_servers : Nat
  mcp_tools : Nat
deriving DecidableEq

/-- Messages the worker pushes on the output queue: `mode_change` dictionaries
and `error` dictionaries (`worker.py` lines 117-125 and 129-132). -/
inductive Msg where
  | modeChange (mode : String)
  | error (message : String)
deriving DecidableEq

/-- Outcome of one `await self.coder.run()` step, as discriminated by the
`try`/`except` ladder of `_async_run`: normal return, `asyncio.CancelledError`,
`SwitchCoder` carrying override kwargs, or any other exception with its
`str(e)` rendering. -/
inductive RunOutcome where
  | completed
  | cancelled
  | switchCoder (overrides : Dict)
  | err (message : String)

/-- How the `while self.running` loop of `_async_run` ended. -/
inductive ExitKind where
  | normalExit
  | cancelledExit
  | erroredExit
  | switchFailedExit
  | exhausted
deriving DecidableEq

/-- The string `getattr(self.coder, 'edit_format', 'code') or 'code'`
(line 116): the attribute when it is a non-empty string, `"code"` when it is
absent or falsy (`None` or the empty string). -/
def getEditFormat (c : Coder) : String :=
  match c.edit_format with
  | StrAttr.absent => "code"
  | StrAttr.pyNone => "code"
  | StrAttr.str s => if s = "" then "code" else s

/-- The keyword-argument dictionary built for `Coder.create` in the
`SwitchCoder` handler (lines 97-109):
`kwargs = dict(io=..., from_coder=...)`, `kwargs.update(switch.kwargs)`,
conditional `del kwargs["show_announcements"]`, then the forced assignments
`num_cache_warming_pings = 0`, `args = self.coder.args`,
`summarize_from_coder = False`, `mcp_servers = []`. -/
def buildSwitchKwargs (c : Coder) (overrides : Dict) : Dict :=
  let kwargs : Dict := [("io", c.io), ("from_coder", PyVal.obj c.id)]
  let kwargs := kwargs.update overrides
  let kwargs :=
    if kwargs.hasKey "show_announcements" then kwargs.del "show_announcements"
    else kwargs
  let kwargs := kwargs.set "num_cache_warming_pings" (PyVal.int 0)
  let kwargs := kwargs.set "args" c.args
  let kwargs := kwargs.set "summarize_from_coder" (PyVal.bool false)
  let kwargs := kwargs.set "mcp_servers" PyVal.emptyList
  kwargs

/-- The external constructor `Coder.create`: from the keyword arguments it
either returns a new coder or raises (the exception rendered as a string).
It is the fallible step of the swap protocol. -/
def CreateFn : Type := Dict → Except String Coder

/-- The body of the `except SwitchCoder` handler (lines 96-120), as one atomic
step: build the kwargs, call `Coder.create`, and on success immediately
restore the old coder's `mcp_servers`/`mcp_tools` handles onto the new coder
(lines 107-113; no suspension point separates construction from the restore)
and form the `mode_change` message computed from the new coder (lines
115-120).  On failure the old coder is untouched and the exception text is
returned. -/
def handleSwitchCoder (create : CreateFn) (c : Coder) (overrides : Dict) :
    Except String (Coder × Msg) :=
  match create (buildSwitchKwargs c overrides) with
  | Except.error e => Except.error e
  | Except.ok created =>
      let newCoder := { created with mcp_servers := c.mcp_servers,
                                     mcp_tools := c.mcp_tools }
      Except.ok (newCoder, Msg.modeChange (getEditFormat newCoder))

/-- The `while self.running` loop of `_async_run` (lines 86-133), with the
running flag held true (a concurrent `stop()` is modelled by a `cancelled`
outcome).  Each iteration consumes one run-step outcome from the oracle list:
normal return and cancellation break with no message; a plain exception
pushes one `error` message and breaks; `SwitchCoder` runs the swap protocol,
continuing with the new coder on success and pushing one
`Failed to switch mode` error and breaking on failure.  Returns the final
value of `self.coder`, the messages pushed in order, and the exit kind
(`exhausted` when the oracle ran out with the loop still going). -/
def asyncRun (create : CreateFn) : Coder → List RunOutcome →
    Coder × List Msg × ExitKind
  | c, [] => (c, [], ExitKind.exhausted)
  | c, RunOutcome.completed :: _ => (c, [], ExitKind.normalExit)
  | c, RunOutcome.cancelled :: _ => (c, [], ExitKind.cancelledExit)
  | c, RunOutcome.err e :: _ => (c, [Msg.error e], ExitKind.erroredExit)
  | c, RunOutcome.switchCoder ov :: rest =>
      match handleSwitchCoder create c ov with
      | Except.error e =>
          (c, [Msg.error ("Failed to switch mode: " ++ e)],
           ExitKind.switchFailedExit)
      | Except.ok (c2, m) =>
          let r := asyncRun create c2 rest
          (r.1, m :: r.2.1, r.2.2)

/-- The coder produced by one successful swap, if any. -/
def afterSwap (create : CreateFn) (c : Coder) (ov : Dict) : Option Coder :=
  match handleSwitchCoder create c ov with
  | Except.error _ => Option.none
  | Except.ok (c2, _) => some c2

/-- Whether every swap of the given override sequence succeeds when run from
coder `c`. -/
def swapsOk (create : CreateFn) : Coder → List Dict → Bool
  | _, [] => true
  | c, ov :: rest =>
      match afterSwap create c ov with
      | Option.none => false
      | some c2 => swapsOk create c2 rest

/-- The sequence of declared modes of the successively constructed coders
along a swap sequence. -/
def modeTrace (create : CreateFn) : Coder → List Dict → List String
  | _, [] => []
  | c, ov :: rest =>
      match afterSwap create c ov with
      | Option.none => []
      | some c2 => getEditFormat c2 :: modeTrace create c2 rest

/-- The coder current after a swap sequence. -/
def finalCoder (create : CreateFn) : Coder → List Dict → Coder
  | c, [] => c
  | c, ov :: rest =>
      match afterSwap create c ov with
      | Option.none => c
      | some c2 => finalCoder create c2 rest

/-- Supervisor-level state touched by `CoderWorker.start` (lines 38-42):
the running flag, the number of worker-thread executions begun so far, and
the identity of the thread object currently held in `self.thread`. -/
structure SupervisorState where
  running : Bool
  threadsStarted : Nat
  thread : Option Nat
deriving DecidableEq

/-- The body of `CoderWorker.start`: unconditionally set `self.running = True`,
construct a fresh `threading.Thread` (a new object identity), store it in
`self.thread`, and start it.  There is no already-running guard in the code;
`thread.start()` returns immediately. -/
def start (s : SupervisorState) : SupervisorState :=
  { running := true
    threadsStarted := s.threadsStarted + 1
    thread := some s.threadsStarted }

/-- State read and written by `CoderWorker.stop` (lines 135-154): the running
flag, the coder's optional `input_running`/`output_running` attributes, the
event loop (presence, whether it is running, whether `loop.stop` has been
requested), and the worker thread (presence and liveness). -/
structure StopState where
  running : Bool
  coderHasInputRunning : Bool
  coderInputRunning : Bool
  coderHasOutputRunning : Bool
  coderOutputRunning : Bool
  hasLoop : Bool
  loopIsRunning : Bool
  loopStopRequested : Bool
  hasThread : Bool
  threadAlive : Bool
deriving DecidableEq

/-- The fixed join timeout of `CoderWorker.stop`: `self.thread.join(timeout=2.0)`
on line 154.  The method takes no timeout parameter. -/
def JOIN_TIMEOUT : ℚ := 2

/-- The body of `CoderWorker.stop`.  Oracles: `callSoonRaises` is true when
`loop.call_soon_threadsafe` raises `RuntimeError` (caught, line 148-150);
`threadExitTime` is how long after the join begins the worker thread would
terminate (arbitrarily large for a session stuck in a non-yielding loop).
Returns the new state and the time spent blocked in the join:
`min threadExitTime JOIN_TIMEOUT` when a live thread is joined, `0` otherwise.
The thread stays alive exactly when it does not exit within the fixed
timeout. -/
def stop (s : StopState) (callSoonRaises : Bool) (threadExitTime : ℚ) :
    StopState × ℚ :=
  let s := { s with running := false }
  let s := if s.coderHasInputRunning then { s with coderInputRunning := false }
           else s
  let s := if s.coderHasOutputRunning then { s with coderOutputRunning := false }
           else s
  let s := if s.hasLoop && s.loopIsRunning && !callSoonRaises then
             { s with loopStopRequested := true }
           else s
  if s.hasThread && s.threadAlive then
    ({ s with threadAlive := !decide (threadExitTime ≤ JOIN_TIMEOUT) },
     min threadExitTime JOIN_TIMEOUT)
  else
    (s, 0)

/-- An asyncio task as seen by `_cleanup_loop`: whether `task.cancel()` has
been requested, whether awaiting it during the drain raises, and whether it
has finished unwinding. -/
structure AsyncTask where
  cancelRequested : Bool
  failsOnUnwind : Bool
  done : Bool
deriving DecidableEq

/-- The worker's event loop as seen by `_cleanup_loop`: closedness, whether it
is still mid-execution, and its pending tasks. -/
structure EventLoop where
  closed : Bool
  running : Bool
  tasks : List AsyncTask
deriving DecidableEq

/-- Result of `_cleanup_loop`: the final loop state, how many drain passes
(`run_until_complete(gather(...))` calls) were made, and whether an exception
propagated to the caller. -/
structure CleanupOutcome where
  loop : Option EventLoop
  drainPasses : Nat
  raised : Bool
deriving DecidableEq

/-- One drain pass (lines 75-80): `run_until_complete` of
`gather(*pending, return_exceptions=True)`.  With `return_exceptions=True`
each task's failure is captured as a result, never raised; if
`run_until_complete` itself raises `RuntimeError` (`rucRaises`, caught by the
inner handler) the tasks may be left not yet unwound, otherwise every task
finishes. -/
def drainTasks (l : EventLoop) (rucRaises : Bool) : EventLoop :=
  if rucRaises then l
  else { l with tasks := l.tasks.map fun t => { t with done := true } }

/-- The body of the outer `try` of `_cleanup_loop` (lines 64-82): returns the
mutated loop, the number of drain passes, and `some e` when an exception
escapes the body (to be swallowed by the outer handler).  If the loop is
closed nothing is done; otherwise every pending task gets `cancel()`, then a
single drain pass runs only when the loop is not mid-execution and tasks are
pending, then `loop.close()` (whose failure, oracle `closeRaises`, escapes the
body). -/
def cleanupBody (l : EventLoop) (rucRaises closeRaises : Bool) :
    EventLoop × Nat × Option String :=
  if l.closed then (l, 0, Option.none)
  else
    let l := { l with tasks := l.tasks.map fun t =>
                 { t with cancelRequested := true } }
    let step : EventLoop × Nat :=
      if l.running then (l, 0)
      else if l.tasks.isEmpty then (l, 0)
      else (drainTasks l rucRaises, 1)
    if closeRaises then (step.1, step.2, some "RuntimeError")
    else ({ step.1 with closed := true }, step.2, Option.none)

/-- `CoderWorker._cleanup_loop` (lines 59-84): return immediately when
`self.loop` is unset; otherwise run the body and swallow any exception it
raises (`except Exception: pass`, lines 83-84), so nothing ever propagates to
the caller. -/
def cleanupLoop (loop : Option EventLoop) (rucRaises closeRaises : Bool) :
    CleanupOutcome :=
  match loop with
  | Option.none => ⟨Option.none, 0, false⟩
  | some l =>
      match cleanupBody l rucRaises closeRaises with
      | (l', d, Option.none) => ⟨some l', d, false⟩
      | (l', d, some _) => ⟨some l', d, false⟩

/-- The effective construction parameters as claim C8 of the specification
words them (for comparison with `buildSwitchKwargs`, which is translated from
the code): the current coder's base parameters merged with the overrides,
the override winning on every key collision, and then the fixed policy
overrides applied (warm-up pings disabled, summarization skipped, empty
placeholder for the MCP initializer).  The claim mentions no removal of
`show_announcements` and no forcing of `args`. -/
def claimedEffectiveKwargs (c : Coder) (overrides : Dict) : Dict :=
  let base : Dict := [("io", c.io), ("from_coder", PyVal.obj c.id)]
  let merged := base.update overrides
  let merged := merged.set "num_cache_warming_pings" (PyVal.int 0)
  let merged := merged.set "summarize_from_coder" (PyVal.bool false)
  merged.set "mcp_servers" PyVal.emptyList

/-- A concrete coder used to instantiate the theorems below. -/
def sampleCoder : Coder :=
  ⟨0, PyVal.obj 10, PyVal.obj 11, StrAttr.str "architect", 5, 6⟩

/-- A concrete coder standing for the result of `Coder.create`. -/
def sampleCreated : Coder :=
  ⟨1, PyVal.obj 12, PyVal.obj 13, StrAttr.pyNone, 7, 8⟩

/-- A constructor oracle that always succeeds, returning `sampleCreated`. -/
def sampleCreateOk : CreateFn := fun _ => Except.ok sampleCreated

/-- A constructor oracle that always raises. -/
def sampleCreateFail : CreateFn := fun _ => Except.error "boom"

/-- The coder current after one successful swap from `sampleCoder` under
`sampleCreateOk`: `sampleCreated` with the old MCP handles restored. -/
def sampleSwapped : Coder :=
  ⟨1, PyVal.obj 12, PyVal.obj 13, StrAttr.pyNone, 5, 6⟩

/-- A concrete pre-`stop` supervisor state: running, coder flags present, a
running event loop, and a live worker thread. -/
def sampleStopState : StopState :=
  ⟨true, true, true, true, true, true, true, false, true, true⟩

/-- A concrete open event loop with two pending tasks, one of which raises
when awaited during the drain. -/
def sampleEventLoop : EventLoop :=
  ⟨false, false, [⟨false, true, false⟩, ⟨false, false, false⟩]⟩

theorem Dict.lookup_set_self (d : Dict) (k : String) (v : PyVal) :
    (d.set k v).lookup k = some v := by
  induction d with
  | nil => simp [Dict.set, Dict.lookup]
  | cons kv rest ih =>
      obtain ⟨k', v'⟩ := kv
      by_cases h : k' = k
      · simp [Dict.set, h, Dict.lookup]
      · simp [Dict.set, h, Dict.lookup, ih]

theorem Dict.lookup_set_of_ne (d : Dict) (k k' : String) (v : PyVal)
    (h : k' ≠ k) : (d.set k v).lookup k' = d.lookup k' := by
  induction d with
  | nil => simp [Dict.set, Dict.lookup, Ne.symm h]
  | cons kv rest ih =>
      obtain ⟨k₀, v₀⟩ := kv
      by_cases h₀ : k₀ = k
      · subst h₀
        simp [Dict.set, Dict.lookup, Ne.symm h]
      · simp [Dict.set, h₀, Dict.lookup, ih]

theorem Dict.lookup_del_of_ne (d : Dict) (k k' : String) (h : k' ≠ k) :
    (d.del k).lookup k' = d.lookup k' := by
  induction d with
  | nil => simp [Dict.del]
  | cons kv rest ih =>
      obtain ⟨k₀, v₀⟩ := kv
      by_cases h₀ : k₀ = k
      · subst h₀
        simp [Dict.del, Dict.lookup, Ne.symm h]
      · simp [Dict.del, h₀, Dict.lookup, ih]

theorem Dict.countKey_set_of_ne (d : Dict) (k k' : String) (v : PyVal)
    (h : k' ≠ k) : (d.set k' v).countKey k = d.countKey k := by
  induction d with
  | nil => simp [Dict.set, Dict.countKey, h]
  | cons kv rest ih =>
      obtain ⟨k₀, v₀⟩ := kv
      by_cases h₀ : k₀ = k'
      · subst h₀
        simp [Dict.set, Dict.countKey, h]
      · simp [Dict.set, h₀, Dict.countKey, ih]

theorem Dict.countKey_set_self (d : Dict) (k : String) (v : PyVal) :
    (d.set k v).countKey k = max (d.countKey k) 1 := by
  induction d with
  | nil => simp [Dict.set, Dict.countKey]
  | cons kv rest ih =>
      obtain ⟨k₀, v₀⟩ := kv
      by_cases h₀ : k₀ = k
      · subst h₀
        simp [Dict.set, Dict.countKey]
      · simp [Dict.set, h₀, Dict.countKey, ih]

theorem Dict.countKey_update_le_one (d : Dict) (o : Dict) (k : String)
    (h : d.countKey k ≤ 1) : (d.update o).countKey k ≤ 1 := by
  induction o generalizing d with
  | nil => simpa [Dict.update] using h
  | cons kv rest ih =>
      obtain ⟨k₀, v₀⟩ := kv
      have hstep : (d.set k₀ v₀).countKey k ≤ 1 := by
        by_cases h₀ : k₀ = k
        · subst h₀
          rw [Dict.countKey_set_self]
          omega
        · rw [Dict.countKey_set_of_ne d k k₀ v₀ h₀]
          exact h
      simpa [Dict.update] using ih (d.set k₀ v₀) hstep

theorem Dict.lookup_none_of_countKey_zero (d : Dict) (k : String)
    (h : d.countKey k = 0) : d.lookup k = Option.none := by
  induction d with
  | nil => simp [Dict.lookup]
  | cons kv rest ih =>
      obtain ⟨k₀, v₀⟩ := kv
      by_cases h₀ : k₀ = k
      · subst h₀
        simp [Dict.countKey] at h
      · simp [Dict.countKey, h₀] at h
        simp [Dict.lookup, h₀, ih h]

theorem Dict.lookup_del_self_of_le_one (d : Dict) (k : String)
    (h : d.countKey k ≤ 1) : (d.del k).lookup k = Option.none := by
  induction d with
  | nil => simp [Dict.del, Dict.lookup]
  | cons kv rest ih =>
      obtain ⟨k₀, v₀⟩ := kv
      by_cases h₀ : k₀ = k
      · subst h₀
        simp [Dict.countKey] at h
        simp [Dict.del]
        exact Dict.lookup_none_of_countKey_zero rest _ (by omega)
      · simp [Dict.countKey, h₀] at h
        simp [Dict.del, h₀, Dict.lookup, h₀, ih h]

theorem base_count_show_announcements (c : Coder) :
    Dict.countKey [("io", c.io), ("from_coder", PyVal.obj c.id)]
      "show_announcements" = 0 := by
  simp [Dict.countKey]

theorem merged_count_show_announcements (c : Coder) (ov : Dict) :
    (Dict.update [("io", c.io), ("from_coder", PyVal.obj c.id)] ov).countKey
      "show_announcements" ≤ 1 :=
  Dict.countKey_update_le_one _ ov _ (by simp [base_count_show_announcements])

theorem buildSwitchKwargs_mcp_servers (c : Coder) (ov : Dict) :
    (buildSwitchKwargs c ov).lookup "mcp_servers" = some PyVal.emptyList := by
  simp only [buildSwitchKwargs]
  rw [Dict.lookup_set_self]

theorem buildSwitchKwargs_summarize (c : Coder) (ov : Dict) :
    (buildSwitchKwargs c ov).lookup "summarize_from_coder" =
      some (PyVal.bool false) := by
  simp only [buildSwitchKwargs]
  rw [Dict.lookup_set_of_ne _ "mcp_servers" "summarize_from_coder" _ (by decide),
      Dict.lookup_set_self]

theorem buildSwitchKwargs_args (c : Coder) (ov : Dict) :
    (buildSwitchKwargs c ov).lookup "args" = some c.args := by
  simp only [buildSwitchKwargs]
  rw [Dict.lookup_set_of_ne _ "mcp_servers" "args" _ (by decide),
      Dict.lookup_set_of_ne _ "summarize_from_coder" "args" _ (by decide),
      Dict.lookup_set_self]

theorem buildSwitchKwargs_num_pings (c : Coder) (ov : Dict) :
    (buildSwitchKwargs c ov).lookup "num_cache_warming_pings" =
      some (PyVal.int 0) := by
  simp only [buildSwitchKwargs]
  rw [Dict.lookup_set_of_ne _ "mcp_servers" "num_cache_warming_pings" _
        (by decide),
      Dict.lookup_set_of_ne _ "summarize_from_coder" "num_cache_warming_pings" _
        (by decide),
      Dict.lookup_set_of_ne _ "args" "num_cache_warming_pings" _ (by decide),
      Dict.lookup_set_self]

theorem buildSwitchKwargs_show_announcements (c : Coder) (ov : Dict) :
    (buildSwitchKwargs c ov).lookup "show_announcements" = Option.none := by
  simp only [buildSwitchKwargs]
  rw [Dict.lookup_set_of_ne _ "mcp_servers" "show_announcements" _ (by decide),
      Dict.lookup_set_of_ne _ "summarize_from_coder" "show_announcements" _
        (by decide),
      Dict.lookup_set_of_ne _ "args" "show_announcements" _ (by decide),
      Dict.lookup_set_of_ne _ "num_cache_warming_pings" "show_announcements" _
        (by decide)]
  by_cases h :
      (Dict.update [("io", c.io), ("from_coder", PyVal.obj c.id)] ov).hasKey
        "show_announcements" = true
  · rw [if_pos h]
    exact Dict.lookup_del_self_of_le_one _ _ (merged_count_show_announcements c ov)
  · rw [if_neg h]
    cases hl :
        (Dict.update [("io", c.io), ("from_coder", PyVal.obj c.id)] ov).lookup
          "show_announcements" with
    | none => rfl
    | some v => exact absurd (by simp [Dict.hasKey, hl]) h

theorem buildSwitchKwargs_other_keys (c : Coder) (ov : Dict) (k : String)
    (h1 : k ≠ "show_announcements") (h2 : k ≠ "num_cache_warming_pings")
    (h3 : k ≠ "args") (h4 : k ≠ "summarize_from_coder")
    (h5 : k ≠ "mcp_servers") :
    (buildSwitchKwargs c ov).lookup k =
      (Dict.update [("io", c.io), ("from_coder", PyVal.obj c.id)] ov).lookup
        k := by
  simp only [buildSwitchKwargs]
  rw [Dict.lookup_set_of_ne _ "mcp_servers" k _ h5,
      Dict.lookup_set_of_ne _ "summarize_from_coder" k _ h4,
      Dict.lookup_set_of_ne _ "args" k _ h3,
      Dict.lookup_set_of_ne _ "num_cache_warming_pings" k _ h2]
  by_cases h :
      (Dict.update [("io", c.io), ("from_coder", PyVal.obj c.id)] ov).hasKey
        "show_announcements" = true
  · rw [if_pos h]
    exact Dict.lookup_del_of_ne _ "show_announcements" k h1
  · rw [if_neg h]

theorem handleSwitchCoder_ok (create : CreateFn) (c : Coder) (ov : Dict)
    (c2 : Coder) (m : Msg)
    (h : handleSwitchCoder create c ov = Except.ok (c2, m)) :
    c2.mcp_servers = c.mcp_servers ∧ c2.mcp_tools = c.mcp_tools ∧
      m = Msg.modeChange (getEditFormat c2) := by
  unfold handleSwitchCoder at h
  cases hc : create (buildSwitchKwargs c ov) with
  | error e => rw [hc] at h; simp at h
  | ok created =>
      rw [hc] at h
      simp only [Except.ok.injEq, Prod.mk.injEq] at h
      obtain ⟨hcoder, hmsg⟩ := h
      subst hcoder
      subst hmsg
      exact ⟨rfl, rfl, rfl⟩

theorem afterSwap_eq_some (create : CreateFn) (c : Coder) (ov : Dict)
    (c2 : Coder) (h : afterSwap create c ov = some c2) :
    handleSwitchCoder create c ov =
      Except.ok (c2, Msg.modeChange (getEditFormat c2)) := by
  unfold afterSwap at h
  cases hc : handleSwitchCoder create c ov with
  | error e => rw [hc] at h; simp at h
  | ok p =>
      obtain ⟨c', m⟩ := p
      rw [hc] at h
      simp only [Option.some.injEq] at h
      subst h
      have hm := handleSwitchCoder_ok create c ov c' m hc
      rw [hm.2.2]

theorem afterSwap_eq_none (create : CreateFn) (c : Coder) (ov : Dict)
    (h : afterSwap create c ov = Option.none) :
    ∃ e, handleSwitchCoder create c ov = Except.error e := by
  unfold afterSwap at h
  cases hc : handleSwitchCoder create c ov with
  | error e => exact ⟨e, rfl⟩
  | ok p => rw [hc] at h; simp at h

theorem asyncRun_preserves_mcp (create : CreateFn) :
    ∀ (outs : List RunOutcome) (c : Coder),
      ((asyncRun create c outs).1).mcp_servers = c.mcp_servers ∧
        ((asyncRun create c outs).1).mcp_tools = c.mcp_tools := by
  intro outs
  induction outs with
  | nil => intro c; exact ⟨rfl, rfl⟩
  | cons o rest ih =>
      intro c
      cases o with
      | completed => exact ⟨rfl, rfl⟩
      | cancelled => exact ⟨rfl, rfl⟩
      | err e => exact ⟨rfl, rfl⟩
      | switchCoder ov =>
          cases hc : handleSwitchCoder create c ov with
          | error e => simp [asyncRun, hc]
          | ok p =>
              obtain ⟨c2, m⟩ := p
              have hm := handleSwitchCoder_ok create c ov c2 m hc
              have hr := ih c2
              simp only [asyncRun, hc]
              exact ⟨hr.1.trans hm.1, hr.2.trans hm.2.1⟩

theorem asyncRun_swap_sequence (create : CreateFn) :
    ∀ (ovs : List Dict) (c : Coder), swapsOk create c ovs = true →
      asyncRun create c
          (ovs.map RunOutcome.switchCoder ++ [RunOutcome.completed]) =
        (finalCoder create c ovs,
         (modeTrace create c ovs).map Msg.modeChange, ExitKind.normalExit) ∧
      (modeTrace create c ovs).length = ovs.length := by
  intro ovs
  induction ovs with
  | nil =>
      intro c _
      exact ⟨rfl, rfl⟩
  | cons ov rest ih =>
      intro c hok
      cases ha : afterSwap create c ov with
      | none =>
          rw [swapsOk, ha] at hok
          simp at hok
      | some c2 =>
          have hok2 : swapsOk create c2 rest = true := by
            rw [swapsOk, ha] at hok
            exact hok
          have hh := afterSwap_eq_some create c ov c2 ha
          have ihc := ih c2 hok2
          constructor
          · simp only [List.map_cons, List.cons_append, asyncRun, hh,
              List.append_eq, ihc.1, modeTrace, finalCoder, ha]
          · simp only [modeTrace, ha, List.length_cons, ihc.2]

theorem stop_elapsed_le (s : StopState) (cs : Bool) (t : ℚ) :
    (stop s cs t).2 ≤ JOIN_TIMEOUT := by
  unfold stop
  dsimp only
  repeat' split
  all_goals first
    | exact min_le_right _ _
    | norm_num [JOIN_TIMEOUT]

theorem stop_running_false (s : StopState) (cs : Bool) (t : ℚ) :
    (stop s cs t).1.running = false := by
  unfold stop
  dsimp only
  repeat' split
  all_goals rfl

theorem stop_loop_stop_requested (s : StopState) (t : ℚ)
    (hl : s.hasLoop = true) (hr : s.loopIsRunning = true) :
    (stop s false t).1.loopStopRequested = true := by
  unfold stop
  dsimp only
  repeat' split
  all_goals simp_all

theorem cleanupBody_drain_le (l : EventLoop) (ruc cr : Bool) :
    (cleanupBody l ruc cr).2.1 ≤ 1 := by
  rcases l with ⟨cl, rn, tasks⟩
  cases cl <;> cases rn <;> cases ruc <;> cases cr <;> cases tasks <;>
    simp [cleanupBody, drainTasks]

theorem cleanupBody_tasks_all_cancelled (l : EventLoop) (ruc cr : Bool)
    (h : l.closed = false) :
    ((cleanupBody l ruc cr).1).tasks.all (fun t => t.cancelRequested) = true := by
  rcases l with ⟨cl, rn, tasks⟩
  simp only at h
  subst h
  cases rn <;> cases ruc <;> cases cr <;> cases tasks <;>
    simp [cleanupBody, drainTasks, List.all_map, Function.comp]

theorem cleanupLoop_raised_false (loop : Option EventLoop) (ruc cr : Bool) :
    (cleanupLoop loop ruc cr).raised = false := by
  cases loop with
  | none => rfl
  | some l =>
      rcases hb : cleanupBody l ruc cr with ⟨l', d, e⟩
      cases e <;> simp [cleanupLoop, hb]

theorem cleanupLoop_drain_le (loop : Option EventLoop) (ruc cr : Bool) :
    (cleanupLoop loop ruc cr).drainPasses ≤ 1 := by
  cases loop with
  | none => simp [cleanupLoop]
  | some l =>
      have hd := cleanupBody_drain_le l ruc cr
      rcases hb : cleanupBody l ruc cr with ⟨l', d, e⟩
      rw [hb] at hd
      cases e <;> simp [cleanupLoop, hb] <;> simpa using hd

theorem cleanupLoop_tasks_all_cancelled (l : EventLoop) (ruc cr : Bool)
    (h : l.closed = false) (l' : EventLoop)
    (h2 : (cleanupLoop (some l) ruc cr).loop = some l') :
    l'.tasks.all (fun t => t.cancelRequested) = true := by
  have hb := cleanupBody_tasks_all_cancelled l ruc cr h
  rcases hbody : cleanupBody l ruc cr with ⟨l₀, d, e⟩
  rw [hbody] at hb
  cases e with
  | none =>
      simp only [cleanupLoop, hbody, Option.some.injEq] at h2
      rw [← h2]
      simpa using hb
  | some err =>
      simp only [cleanupLoop, hbody, Option.some.injEq] at h2
      rw [← h2]
      simpa using hb

/-- Claim C1: for every successful swap triggered by a `SwitchCoder` signal,
the shared sub-resource handles (`mcp_servers`, `mcp_tools`) reachable from
the current coder are the identical handles before and after the swap, and
across a whole run of the loop, whatever outcomes occur, the current coder's
handles never change.  The transfer is synchronous: in the source, the
restore (lines 112-113) directly follows construction with no suspension
point, which the embedding reflects by making `handleSwitchCoder` a single
atomic step whose result already carries the restored handles. -/
theorem swap_preserves_shared_subresources (create : CreateFn) (c : Coder)
    (ov : Dict) (outs : List RunOutcome) :
    (∀ c2 m, handleSwitchCoder create c ov = Except.ok (c2, m) →
        c2.mcp_servers = c.mcp_servers ∧ c2.mcp_tools = c.mcp_tools) ∧
    ((asyncRun create c outs).1).mcp_servers = c.mcp_servers ∧
    ((asyncRun create c outs).1).mcp_tools = c.mcp_tools := by
  refine ⟨fun c2 m h => ?_, (asyncRun_preserves_mcp create outs c).1,
    (asyncRun_preserves_mcp create outs c).2⟩
  have hm := handleSwitchCoder_ok create c ov c2 m h
  exact ⟨hm.1, hm.2.1⟩

/-- Witness for C1: a concrete successful swap whose resulting coder carries
the old coder's MCP handles. -/
theorem swap_preserves_shared_subresources_witness :
    sampleSwapped.mcp_servers = sampleCoder.mcp_servers ∧
    sampleSwapped.mcp_tools = sampleCoder.mcp_tools :=
  (swap_preserves_shared_subresources sampleCreateOk sampleCoder [] []).1
    sampleSwapped (Msg.modeChange "code") (by rfl)

/-- Claim C2 counterexample: `CoderWorker.stop` has no timeout parameter; the
join bound is the fixed constant 2.0 seconds, not a caller-given timeout.
With a supposed caller timeout of 0.5 s and a session exiting after 1.5 s,
the call blocks 1.5 s, exceeding the supposed bound. -/
theorem stop_fixed_timeout_counterexample :
    (stop sampleStopState false (3 / 2)).2 = 3 / 2 ∧
    ¬ ((3 / 2 : ℚ) ≤ 1 / 2) := by
  constructor
  · simp only [stop, sampleStopState]
    norm_num [JOIN_TIMEOUT, min_def]
  · norm_num

/-- Claim C2 (amended): `stop()` takes no timeout argument; it flips the
running flag, signals the coder's cooperative flags, requests the event loop
to stop when it is running, and joins the worker thread for at most the fixed
`JOIN_TIMEOUT` of 2 seconds, returning even if the thread has not terminated
(thread abandoned, not killed); calling it again is safe and equally
bounded, so the call latency is bounded independently of session behavior. -/
theorem stop_bounded_and_repeatable (s : StopState) (cs cs' : Bool)
    (t t' : ℚ) :
    (stop s cs t).2 ≤ JOIN_TIMEOUT ∧
    (stop s cs t).1.running = false ∧
    (stop (stop s cs t).1 cs' t').2 ≤ JOIN_TIMEOUT ∧
    (stop (stop s cs t).1 cs' t').1.running = false ∧
    (s.hasLoop = true → s.loopIsRunning = true →
      (stop s false t).1.loopStopRequested = true) :=
  ⟨stop_elapsed_le s cs t, stop_running_false s cs t,
   stop_elapsed_le _ cs' t', stop_running_false _ cs' t',
   fun hl hr => stop_loop_stop_requested s t hl hr⟩

/-- Witness for C2 (amended): a concrete double `stop` on a running worker
with a session that would take 10 seconds to exit. -/
theorem stop_bounded_and_repeatable_witness :
    (stop sampleStopState false 10).2 ≤ JOIN_TIMEOUT ∧
    (stop sampleStopState false 10).1.running = false ∧
    (stop (stop sampleStopState false 10).1 true 10).2 ≤ JOIN_TIMEOUT ∧
    (stop (stop sampleStopState false 10).1 true 10).1.running = false ∧
    (stop sampleStopState false 10).1.loopStopRequested = true := by
  have h := stop_bounded_and_repeatable sampleStopState false true 10 10
  exact ⟨h.1, h.2.1, h.2.2.1, h.2.2.2.1, h.2.2.2.2 rfl rfl⟩

/-- Claim C3: if `Coder.create` fails during the swap protocol, the swap is
aborted: exactly one `error` message (carrying the
`Failed to switch mode` text) is pushed, the loop ends with a failed-switch
exit, the current coder stays the old one (it is simply discarded with the
loop, never run again), and the remaining run-step oracle is not consumed. -/
theorem swap_failure_fail_stop (create : CreateFn) (c : Coder) (ov : Dict)
    (rest : List RunOutcome) (e : String)
    (h : create (buildSwitchKwargs c ov) = Except.error e) :
    asyncRun create c (RunOutcome.switchCoder ov :: rest) =
      (c, [Msg.error ("Failed to switch mode: " ++ e)],
       ExitKind.switchFailedExit) := by
  have hh : handleSwitchCoder create c ov = Except.error e := by
    unfold handleSwitchCoder
    rw [h]
  simp [asyncRun, hh]

/-- Witness for C3: a concrete failing construction aborts the swap with one
error message, ignoring the rest of the oracle. -/
theorem swap_failure_fail_stop_witness :
    asyncRun sampleCreateFail sampleCoder
        [RunOutcome.switchCoder [], RunOutcome.completed] =
      (sampleCoder, [Msg.error ("Failed to switch mode: " ++ "boom")],
       ExitKind.switchFailedExit) :=
  swap_failure_fail_stop sampleCreateFail sampleCoder [] [RunOutcome.completed]
    "boom" (by rfl)

/-- Claim C4: if a run step fails with any error other than `SwitchCoder` or
cancellation, exactly one `error` message containing the failure description
is pushed and the loop terminates without retrying: the remaining outcomes
are never consumed. -/
theorem run_error_fail_stop (create : CreateFn) (c : Coder) (e : String)
    (rest : List RunOutcome) :
    asyncRun create c (RunOutcome.err e :: rest) =
      (c, [Msg.error e], ExitKind.erroredExit) :=
  rfl

/-- Claim C5: for any sequence of N successful swaps followed by normal
completion, the output queue receives exactly N `mode_change` messages, in
the order the swaps were requested, each carrying the mode declared by the
newly constructed coder. -/
theorem swap_sequence_mode_changes (create : CreateFn) (c : Coder)
    (ovs : List Dict) (h : swapsOk create c ovs = true) :
    (asyncRun create c
        (ovs.map RunOutcome.switchCoder ++ [RunOutcome.completed])).2.1 =
      (modeTrace create c ovs).map Msg.modeChange ∧
    (modeTrace create c ovs).length = ovs.length := by
  have hs := asyncRun_swap_sequence create ovs c h
  exact ⟨by rw [hs.1], hs.2⟩

/-- Witness for C5: two concrete successful swaps produce exactly two
`mode_change` messages. -/
theorem swap_sequence_mode_changes_witness :
    (asyncRun sampleCreateOk sampleCoder
        (([[], []] : List Dict).map RunOutcome.switchCoder ++
          [RunOutcome.completed])).2.1 =
      (modeTrace sampleCreateOk sampleCoder [[], []]).map Msg.modeChange ∧
    (modeTrace sampleCreateOk sampleCoder [[], []]).length =
      ([[], []] : List Dict).length :=
  swap_sequence_mode_changes sampleCreateOk sampleCoder [[], []] (by decide)

/-- Claim C6: `_cleanup_loop` never raises to its caller, for every loop state
and whatever the drain or `close()` do; it performs at most one drain pass
(with individual task failures suppressed by `return_exceptions=True`), and
when an open loop is present every still-scheduled task has had cancellation
requested in the final state. -/
theorem cleanup_loop_never_raises (loop : Option EventLoop)
    (ruc closeR : Bool) :
    (cleanupLoop loop ruc closeR).raised = false ∧
    (cleanupLoop loop ruc closeR).drainPasses ≤ 1 ∧
    (∀ l, loop = some l → l.closed = false →
      ∀ l', (cleanupLoop loop ruc closeR).loop = some l' →
        l'.tasks.all (fun t => t.cancelRequested) = true) := by
  refine ⟨cleanupLoop_raised_false loop ruc closeR,
    cleanupLoop_drain_le loop ruc closeR, ?_⟩
  intro l hl hc l' h2
  subst hl
  exact cleanupLoop_tasks_all_cancelled l ruc closeR hc l' h2

/-- Witness for C6: concrete teardown of an open loop with a failing task,
a `RuntimeError` from the drain, and a failing `close()`: both tasks end up
cancel-requested and nothing is raised. -/
theorem cleanup_loop_never_raises_witness :
    (⟨false, false, [⟨true, true, false⟩, ⟨true, false, false⟩]⟩ :
        EventLoop).tasks.all (fun t => t.cancelRequested) = true :=
  (cleanup_loop_never_raises (some sampleEventLoop) true true).2.2
    sampleEventLoop rfl rfl
    ⟨false, false, [⟨true, true, false⟩, ⟨true, false, false⟩]⟩ (by rfl)

/-- Claim C7 counterexample: `start()` is not an idempotent no-op when the
worker is already running.  From a fresh supervisor, one call begins thread
execution number 1; a second call changes the state again and begins thread
execution number 2, replacing the stored thread handle. -/
theorem start_not_idempotent_counterexample :
    start (start ⟨false, 0, Option.none⟩) ≠ start ⟨false, 0, Option.none⟩ ∧
    (start (start ⟨false, 0, Option.none⟩)).threadsStarted = 2 ∧
    (start ⟨false, 0, Option.none⟩).threadsStarted = 1 := by
  refine ⟨?_, rfl, rfl⟩
  decide

/-- Claim C7 (amended): `start()` unconditionally sets the running flag,
constructs a fresh worker thread and begins its execution, returning
immediately; a second call while the first thread is alive therefore begins a
second worker-thread execution and replaces the thread handle (the code has
no already-running guard). -/
theorem start_always_spawns_thread (s : SupervisorState) :
    (start s).running = true ∧
    (start s).threadsStarted = s.threadsStarted + 1 ∧
    (start s).thread = some s.threadsStarted :=
  ⟨rfl, rfl, rfl⟩

/-- Claim C8 counterexample: the effective construction parameters are not
the base parameters merged with the overrides with the override winning on
every key collision (plus the three fixed policy overrides): on the override
`{args: 42}` the code forces `args` back to the current coder's `args`
object, while the claim's merge keeps 42. -/
theorem effective_kwargs_counterexample :
    (buildSwitchKwargs sampleCoder [("args", PyVal.int 42)]).lookup "args" ≠
      (claimedEffectiveKwargs sampleCoder
        [("args", PyVal.int 42)]).lookup "args" := by
  decide

/-- Claim C8 (amended): the effective construction parameters equal the base
parameters `{io, from_coder}` merged with the overrides (override winning on
key collision), except that any `show_announcements` key is removed and
`args` is forced to the current coder's `args` regardless of the overrides;
then the fixed policy overrides are applied: `num_cache_warming_pings = 0`
(warm-up pings disabled), `summarize_from_coder = False` (summarization
skipped), and `mcp_servers = []` (empty placeholder for the shared
sub-resource initializer).  Every other key carries exactly the merged
value. -/
theorem effective_kwargs_characterization (c : Coder) (ov : Dict) :
    (buildSwitchKwargs c ov).lookup "num_cache_warming_pings" =
      some (PyVal.int 0) ∧
    (buildSwitchKwargs c ov).lookup "summarize_from_coder" =
      some (PyVal.bool false) ∧
    (buildSwitchKwargs c ov).lookup "mcp_servers" = some PyVal.emptyList ∧
    (buildSwitchKwargs c ov).lookup "args" = some c.args ∧
    (buildSwitchKwargs c ov).lookup "show_announcements" = Option.none ∧
    (∀ k, k ≠ "show_announcements" → k ≠ "num_cache_warming_pings" →
      k ≠ "args" → k ≠ "summarize_from_coder" → k ≠ "mcp_servers" →
      (buildSwitchKwargs c ov).lookup k =
        (Dict.update [("io", c.io), ("from_coder", PyVal.obj c.id)]
          ov).lookup k) :=
  ⟨buildSwitchKwargs_num_pings c ov, buildSwitchKwargs_summarize c ov,
   buildSwitchKwargs_mcp_servers c ov, buildSwitchKwargs_args c ov,
   buildSwitchKwargs_show_announcements c ov,
   fun k h1 h2 h3 h4 h5 =>
     buildSwitchKwargs_other_keys c ov k h1 h2 h3 h4 h5⟩

/-- Witness for C8 (amended): on a concrete override dictionary, a
non-policy key carries exactly the merged value. -/
theorem effective_kwargs_characterization_witness :
    (buildSwitchKwargs sampleCoder [("model", PyVal.obj 99)]).lookup "model" =
      (Dict.update
        [("io", sampleCoder.io), ("from_coder", PyVal.obj sampleCoder.id)]
        [("model", PyVal.obj 99)]).lookup "model" :=
  (effective_kwargs_characterization sampleCoder
      [("model", PyVal.obj 99)]).2.2.2.2.2 "model"
    (by decide) (by decide) (by decide) (by decide) (by decide)

/-- Claim C9: for every override dictionary, the `show_announcements` key is
absent from the effective construction parameters, so the new coder is never
built with a `show_announcements` argument. -/
theorem show_announcements_never_passed (c : Coder) (ov : Dict) :
    (buildSwitchKwargs c ov).lookup "show_announcements" = Option.none :=
  buildSwitchKwargs_show_announcements c ov

/-- Claim C10: after every successful swap, the pushed `mode_change` message
carries exactly `getattr(new_coder, 'edit_format', 'code') or 'code'`: the
`edit_format` attribute when it is a non-empty string, and `"code"` when the
attribute is absent or falsy (`None` or the empty string). -/
theorem mode_change_mode_field (create : CreateFn) (c : Coder) (ov : Dict)
    (c2 : Coder) (m : Msg)
    (h : handleSwitchCoder create c ov = Except.ok (c2, m)) :
    m = Msg.modeChange (getEditFormat c2) ∧
    (∀ s, c2.edit_format = StrAttr.str s → s ≠ "" → getEditFormat c2 = s) ∧
    ((c2.edit_format = StrAttr.absent ∨ c2.edit_format = StrAttr.pyNone ∨
        c2.edit_format = StrAttr.str "") → getEditFormat c2 = "code") := by
  refine ⟨(handleSwitchCoder_ok create c ov c2 m h).2.2, ?_, ?_⟩
  · intro s hs hne
    simp [getEditFormat, hs, hne]
  · rintro (h1 | h1 | h1) <;> simp [getEditFormat, h1]

/-- Witness for C10: a concrete swap whose new coder has `edit_format = None`
pushes a `mode_change` message with mode `"code"`. -/
theorem mode_change_mode_field_witness :
    Msg.modeChange "code" = Msg.modeChange (getEditFormat sampleSwapped) :=
  (mode_change_mode_field sampleCreateOk sampleCoder [] sampleSwapped
    (Msg.modeChange "code") (by rfl)).1

end CecliWorker
